import Mathlib

/-!
# Verification of `src/tiled/layermodel.cpp` (Tiled layer model)

A shallow embedding of the layer list model of the Tiled map editor:
the map's layer collection, the row ↔ layer-index arithmetic, the two
leaf undo commands (`SetLayerVisible`, `SetLayerOpacity`), `setData`,
`toggleOtherLayers`, `takeLayerAt` and `setMapDocument`.

Modelling conventions:
* Machine `int` becomes `Int` where sign matters (row arithmetic, the
  `-1` sentinel of `toLayerIndex`), `Nat` for in-range layer indices.
* `float`/`qreal` opacity becomes `ℚ`; the claims depend only on which
  values are stored and compared, never on rounding.
* Qt signal emissions are modelled as an explicit event trace where a
  claim is about them (`takeLayerAt`); the pure layer mutators drop
  the emissions, which do not change layer state.
* `QUndoStack::push` is not executed inside `setData`: faithfully to
  the source, `setData` only constructs commands, so it returns the
  (unchanged) map together with the accepted flag and the command it
  pushes, if any.  Command execution (`redo`/`undo`/`swap`) is modelled
  separately on the map.
* A null `MapDocument*` dereference is undefined behaviour in the
  source; `setMapDocument` therefore returns `Option`, `none` standing
  for the undefined outcome.
-/

namespace LayerModelSpec

/-- The closed set of layer kinds, used only to pick a display icon. -/
inductive LayerType where
  | tileLayerType
  | objectGroupType
  | imageLayerType
deriving DecidableEq, Repr

/-- One map layer, with the fields this file reads or writes. -/
structure Layer where
  name : String
  visible : Bool
  opacity : ℚ
  type : LayerType
deriving DecidableEq, Repr

/-- Default-constructed `Layer` (visible, fully opaque), used only as the
out-of-range fallback of `Map.layerAt`; every theorem below restricts to
in-range indices, where the fallback is never taken. -/
instance : Inhabited Layer :=
  ⟨{ name := "", visible := true, opacity := 1, type := .tileLayerType }⟩

/-- The map: an ordered sequence of layers (storage order, index 0 at the
bottom). -/
structure Map where
  layers : List Layer
deriving DecidableEq, Repr

/-- Source `Map::layerCount()`. -/
def Map.layerCount (m : Map) : Nat :=
  m.layers.length

/-- Source `Map::layerAt(index)`; out-of-range access is undefined in C++ and
mapped to the default layer here (all uses below are in range). -/
def Map.layerAt (m : Map) (i : Nat) : Layer :=
  m.layers.getD i default

/-- Source `Layer::setVisible` through `Map`: replace layer `i`'s visibility. -/
def Map.setLayerVisible (m : Map) (i : Nat) (v : Bool) : Map :=
  ⟨m.layers.set i { m.layerAt i with visible := v }⟩

/-- Source `Layer::setOpacity` through `Map`: replace layer `i`'s opacity. -/
def Map.setLayerOpacity (m : Map) (i : Nat) (o : ℚ) : Map :=
  ⟨m.layers.set i { m.layerAt i with opacity := o }⟩

/-- Source `Map::takeLayerAt(index)`: remove and return the layer at `index`. -/
def Map.takeLayerAt (m : Map) (i : Nat) : Option Layer × Map :=
  (m.layers.get? i, ⟨m.layers.eraseIdx i⟩)

/-- Source `LayerModel::toLayerIndex(const QModelIndex &)`: a valid model index
carries its row (`some row`); an invalid one (`none`) maps to `-1`.
`n` is `mMap->layerCount()`. -/
def toLayerIndex (n : Int) : Option Int → Int
  | some row => n - row - 1
  | none => -1

/-- Source `LayerModel::layerIndexToRow(layerIndex)`; `n` is the layer count. -/
def layerIndexToRow (n : Int) (layerIndex : Int) : Int :=
  n - layerIndex - 1

/-- The undoable commands this file pushes onto the document's undo
stack.  `setLayerOpacity` carries the old opacity captured from the
layer at construction time (`SetLayerOpacity`'s constructor) together
with the requested new opacity. -/
inductive UndoCmd where
  | setLayerVisible (layerIndex : Nat) (visible : Bool)
  | setLayerOpacity (layerIndex : Nat) (oldOpacity newOpacity : ℚ)
  | renameLayer (layerIndex : Nat) (name : String)
deriving DecidableEq, Repr

/-- The `QVariant` conversions `setData` performs: `toInt()` (total, with
a zero fallback in Qt), `toDouble(&ok)` (`none` when the value does not
parse as a number) and `toString()`. -/
structure Variant where
  toInt : Int
  toDouble : Option ℚ
  toString : String

/-- The item-model roles `setData` distinguishes. -/
inductive Role where
  | checkStateRole
  | opacityRole
  | editRole
  | otherRole
deriving DecidableEq, Repr

/-- The value of `Qt::Checked`. -/
def qtChecked : Int := 2

/-- Source `LayerModel::setData(index, value, role)`.  Returns the (unchanged)
map — the source never mutates a layer here — the accepted flag, and
the command pushed onto the undo stack, if any. -/
def setData (m : Map) (index : Option Int) (value : Variant) (role : Role) :
    Map × Bool × Option UndoCmd :=
  let layerIndex := toLayerIndex (m.layerCount : Int) index
  if layerIndex < 0 then
    (m, false, none)
  else
    let layer := m.layerAt layerIndex.toNat
    match role with
    | .checkStateRole =>
      let visible : Bool := value.toInt == qtChecked
      if visible != layer.visible then
        (m, true, some (.setLayerVisible layerIndex.toNat visible))
      else
        (m, true, none)
    | .opacityRole =>
      match value.toDouble with
      | some opacity =>
        if layer.opacity != opacity then
          (m, true, some (.setLayerOpacity layerIndex.toNat layer.opacity opacity))
        else
          (m, true, none)
      | none => (m, false, none)
    | .editRole =>
      let newName := value.toString
      if layer.name != newName then
        (m, true, some (.renameLayer layerIndex.toNat newName))
      else
        (m, true, none)
    | .otherRole => (m, false, none)

/-- The state of a `SetLayerVisible` undo command: target layer index and
the pending visibility value (reused as scratch by `swap`), plus the
label fixed at construction. -/
structure SetLayerVisibleCmd where
  mLayerIndex : Nat
  mVisible : Bool
  text : String
deriving DecidableEq, Repr

/-- The `SetLayerVisible` constructor: stores index and value and picks
the label from the target state. -/
def SetLayerVisibleCmd.make (layerIndex : Nat) (visible : Bool) :
    SetLayerVisibleCmd :=
  { mLayerIndex := layerIndex
    mVisible := visible
    text := if visible then "Show Layer" else "Hide Layer" }

/-- Source `SetLayerVisible::swap()`: read the current visibility, write the
stored pending value to the layer, store the just-read previous value. -/
def SetLayerVisibleCmd.swap (c : SetLayerVisibleCmd) (m : Map) :
    Map × SetLayerVisibleCmd :=
  let previousVisible := (m.layerAt c.mLayerIndex).visible
  (m.setLayerVisible c.mLayerIndex c.mVisible,
   { c with mVisible := previousVisible })

/-- Source `SetLayerVisible::undo()` is `swap()`. -/
def SetLayerVisibleCmd.undo : SetLayerVisibleCmd → Map → Map × SetLayerVisibleCmd :=
  SetLayerVisibleCmd.swap

/-- Source `SetLayerVisible::redo()` is `swap()`. -/
def SetLayerVisibleCmd.redo : SetLayerVisibleCmd → Map → Map × SetLayerVisibleCmd :=
  SetLayerVisibleCmd.swap

/-- The state of a `SetLayerOpacity` undo command.  `mMapDocument` is the
identity of the target document (a pointer in the source, modelled as an
opaque identifier). -/
structure SetLayerOpacityCmd where
  mMapDocument : Nat
  mLayerIndex : Nat
  mOldOpacity : ℚ
  mNewOpacity : ℚ
deriving DecidableEq, Repr

/-- The `SetLayerOpacity` constructor: captures the old opacity from the
current layer state of the document's map. -/
def SetLayerOpacityCmd.make (doc : Nat) (m : Map) (layerIndex : Nat)
    (opacity : ℚ) : SetLayerOpacityCmd :=
  { mMapDocument := doc
    mLayerIndex := layerIndex
    mOldOpacity := (m.layerAt layerIndex).opacity
    mNewOpacity := opacity }

/-- Source `SetLayerOpacity::mergeWith(other)`: fails (leaving the command
unchanged) unless `other` targets the same document and layer index;
on success overwrites the new opacity with `other`'s. -/
def SetLayerOpacityCmd.mergeWith (c o : SetLayerOpacityCmd) :
    Bool × SetLayerOpacityCmd :=
  if c.mMapDocument = o.mMapDocument ∧ c.mLayerIndex = o.mLayerIndex then
    (true, { c with mNewOpacity := o.mNewOpacity })
  else
    (false, c)

/-- Source `SetLayerOpacity::undo()`: set the layer's opacity to the old value. -/
def SetLayerOpacityCmd.undo (c : SetLayerOpacityCmd) (m : Map) : Map :=
  m.setLayerOpacity c.mLayerIndex c.mOldOpacity

/-- Source `SetLayerOpacity::redo()`: set the layer's opacity to the new value. -/
def SetLayerOpacityCmd.redo (c : SetLayerOpacityCmd) (m : Map) : Map :=
  m.setLayerOpacity c.mLayerIndex c.mNewOpacity

/-- The first loop of `LayerModel::toggleOtherLayers`: `visibility`
starts `true` and drops to `false` (with a break) at the first layer
other than `layerIndex` that is visible. -/
def visibilityLoop (m : Map) (layerIndex : Nat) (i : Nat) : Bool :=
  if _h : i < m.layerCount then
    if i = layerIndex then
      visibilityLoop m layerIndex (i + 1)
    else if (m.layerAt i).visible then
      false
    else
      visibilityLoop m layerIndex (i + 1)
  else
    true
termination_by m.layerCount - i

/-- The second loop of `LayerModel::toggleOtherLayers`: push one
`SetLayerVisible` command for each layer other than `layerIndex` whose
visibility differs from the computed target. -/
def pushLoop (m : Map) (layerIndex : Nat) (visibility : Bool) (i : Nat) :
    List UndoCmd :=
  if _h : i < m.layerCount then
    if i = layerIndex then
      pushLoop m layerIndex visibility (i + 1)
    else if visibility != (m.layerAt i).visible then
      .setLayerVisible i visibility :: pushLoop m layerIndex visibility (i + 1)
    else
      pushLoop m layerIndex visibility (i + 1)
  else
    []
termination_by m.layerCount - i

/-- Source `LayerModel::toggleOtherLayers(layerIndex)`: `none` when there is at
most one layer (no grouped undo step is opened); otherwise the label of
the undo group together with the commands pushed inside it, in order. -/
def toggleOtherLayers (m : Map) (layerIndex : Nat) :
    Option (String × List UndoCmd) :=
  if m.layerCount ≤ 1 then
    none
  else
    let visibility := visibilityLoop m layerIndex 0
    let label := if visibility then "Show Other Layers" else "Hide Other Layers"
    some (label, pushLoop m layerIndex visibility 0)

/-- The signals and model notifications `takeLayerAt` emits, in emission
order. -/
inductive Event where
  | layerAboutToBeRemoved (index : Nat)
  | beginRemoveRows (first last : Int)
  | endRemoveRows
  | layerRemoved (index : Nat)
deriving DecidableEq, Repr

/-- Source `LayerModel::takeLayerAt(index)`: emit `layerAboutToBeRemoved`, then
remove the layer between the `beginRemoveRows`/`endRemoveRows` bracket
(a single-row removal at the reversed row), emit `layerRemoved`, and
return the removed layer.  The result is (returned layer, new map,
event trace in emission order, the removal happening inside the
bracket). -/
def takeLayerAt (m : Map) (index : Nat) : Option Layer × Map × List Event :=
  let row := layerIndexToRow (m.layerCount : Int) index
  let (layer, m') := m.takeLayerAt index
  (layer, m',
   [.layerAboutToBeRemoved index,
    .beginRemoveRows row row,
    .endRemoveRows,
    .layerRemoved index])

/-- A map document: owns a map.  Pointer identity is value identity
here; the claims below do not depend on the difference. -/
structure MapDocument where
  map : Map
deriving DecidableEq, Repr

/-- The fields of `LayerModel` the bound-document claims need.  A null
`MapDocument*`/`Map*` is `none`. -/
structure LayerModel where
  mMapDocument : Option MapDocument
  mMap : Option Map
deriving DecidableEq, Repr

/-- The `LayerModel` constructor: both pointers null. -/
def LayerModel.initial : LayerModel :=
  { mMapDocument := none, mMap := none }

/-- Source `LayerModel::rowCount(parent)`: 0 for a valid parent or a null map,
otherwise the layer count. -/
def LayerModel.rowCount (s : LayerModel) (parentValid : Bool) : Int :=
  if parentValid then 0
  else match s.mMap with
    | some m => (m.layerCount : Int)
    | none => 0

/-- Source `LayerModel::setMapDocument(mapDocument)`: no-op when the identical
document is re-bound; otherwise stores the document and dereferences it
(`mMapDocument->map()`) with no null check — binding null after a real
bind is undefined behaviour, modelled as `none`. -/
def LayerModel.setMapDocument (s : LayerModel) (mapDocument : Option MapDocument) :
    Option LayerModel :=
  if s.mMapDocument = mapDocument then
    some s
  else
    match mapDocument with
    | some doc => some { mMapDocument := mapDocument, mMap := some doc.map }
    | none => none

/-- A layer literal for the concrete witness maps. -/
def exLayer (nm : String) (vis : Bool) (op : ℚ) : Layer :=
  { name := nm, visible := vis, opacity := op, type := .tileLayerType }

/-- A one-layer map. -/
def exMap1 : Map :=
  ⟨[exLayer "bottom" true 1]⟩

/-- A three-layer map: layer 0 hidden, layers 1 and 2 visible (the
spec's `toggleOtherLayers` scenario). -/
def exMap3 : Map :=
  ⟨[exLayer "bottom" false 1, exLayer "middle" true 3, exLayer "top" true 1]⟩

/-- A variant carrying `Qt::Checked`. -/
def exVariantChecked : Variant :=
  { toInt := 2, toDouble := some 2, toString := "2" }

/-- A variant carrying the number `2`. -/
def exVariantOpacity : Variant :=
  { toInt := 0, toDouble := some 2, toString := "2" }

/-- A variant whose value does not parse as a number. -/
def exVariantBad : Variant :=
  { toInt := 0, toDouble := none, toString := "not a number" }

/-- A variant carrying the string `"top"`. -/
def exVariantName : Variant :=
  { toInt := 0, toDouble := none, toString := "top" }

/-! ## Basic lemmas about the map mutators -/

theorem Map.layerCount_setLayerVisible (m : Map) (i : Nat) (v : Bool) :
    (m.setLayerVisible i v).layerCount = m.layerCount := by
  simp [Map.setLayerVisible, Map.layerCount]

theorem Map.layerAt_setLayerVisible_self (m : Map) (i : Nat) (v : Bool)
    (h : i < m.layerCount) :
    (m.setLayerVisible i v).layerAt i = { m.layerAt i with visible := v } := by
  simp only [Map.setLayerVisible, Map.layerAt, List.getD]
  rw [List.get?_set_eq_of_lt _ h]
  rfl

theorem Map.layerCount_setLayerOpacity (m : Map) (i : Nat) (o : ℚ) :
    (m.setLayerOpacity i o).layerCount = m.layerCount := by
  simp [Map.setLayerOpacity, Map.layerCount]

theorem Map.layerAt_setLayerOpacity_self (m : Map) (i : Nat) (o : ℚ)
    (h : i < m.layerCount) :
    (m.setLayerOpacity i o).layerAt i = { m.layerAt i with opacity := o } := by
  simp only [Map.setLayerOpacity, Map.layerAt, List.getD]
  rw [List.get?_set_eq_of_lt _ h]
  rfl

/-! ## C1: row ↔ layer-index bijection -/

/-- C1. For every valid row `r` in a map with layer count `n`,
`toLayerIndex` maps `r` to `n - r - 1`, and `layerIndexToRow` inverts
it: `layerIndexToRow (toLayerIndex r) = r`, and symmetrically
`toLayerIndex (layerIndexToRow i) = i` for every valid layer index. -/
theorem toLayerIndex_row_inverse (n r i : Int) (_h0 : 0 ≤ r) (_h1 : r < n)
    (_h2 : 0 ≤ i) (_h3 : i < n) :
    toLayerIndex n (some r) = n - r - 1 ∧
    layerIndexToRow n (toLayerIndex n (some r)) = r ∧
    toLayerIndex n (some (layerIndexToRow n i)) = i := by
  refine ⟨rfl, ?_, ?_⟩ <;> simp only [toLayerIndex, layerIndexToRow] <;> omega

/-- Witness for C1 at `n = 3`, `r = 0`, `i = 1`. -/
theorem toLayerIndex_row_inverse_witness :
    toLayerIndex 3 (some 0) = 3 - 0 - 1 ∧
    layerIndexToRow 3 (toLayerIndex 3 (some 0)) = 0 ∧
    toLayerIndex 3 (some (layerIndexToRow 3 1)) = 1 :=
  toLayerIndex_row_inverse 3 0 1 (by decide) (by decide) (by decide) (by decide)

/-! ## C2: `SetLayerVisible` undo/redo symmetry -/

/-- C2. `SetLayerVisible`'s undo and redo are the identical swap
operation; redo sets the layer to the stored value and stores the
previous one, redo-then-undo restores the original visibility exactly,
and a further redo (undo-then-redo from the applied state) restores the
toggled value: two consecutive swaps are the identity on the layer's
visibility. -/
theorem setLayerVisible_swap_undo_redo (m : Map) (c : SetLayerVisibleCmd)
    (h : c.mLayerIndex < m.layerCount) :
    SetLayerVisibleCmd.undo = SetLayerVisibleCmd.redo ∧
    ((c.redo m).1.layerAt c.mLayerIndex).visible = c.mVisible ∧
    (c.redo m).2.mVisible = (m.layerAt c.mLayerIndex).visible ∧
    (((c.redo m).2.undo (c.redo m).1).1.layerAt c.mLayerIndex).visible
      = (m.layerAt c.mLayerIndex).visible ∧
    ((((c.redo m).2.undo (c.redo m).1).2.redo
        ((c.redo m).2.undo (c.redo m).1).1).1.layerAt c.mLayerIndex).visible
      = c.mVisible := by
  have h1 : c.mLayerIndex < (m.setLayerVisible c.mLayerIndex c.mVisible).layerCount := by
    rw [Map.layerCount_setLayerVisible]; exact h
  have h2 : c.mLayerIndex <
      ((m.setLayerVisible c.mLayerIndex c.mVisible).setLayerVisible c.mLayerIndex
        (m.layerAt c.mLayerIndex).visible).layerCount := by
    rw [Map.layerCount_setLayerVisible, Map.layerCount_setLayerVisible]; exact h
  refine ⟨rfl, ?_, rfl, ?_, ?_⟩
  · simp [SetLayerVisibleCmd.redo, SetLayerVisibleCmd.swap,
      Map.layerAt_setLayerVisible_self m _ _ h]
  · simp [SetLayerVisibleCmd.redo, SetLayerVisibleCmd.undo, SetLayerVisibleCmd.swap,
      Map.layerAt_setLayerVisible_self _ _ _ h1]
  · simp [SetLayerVisibleCmd.redo, SetLayerVisibleCmd.undo, SetLayerVisibleCmd.swap,
      Map.layerAt_setLayerVisible_self _ _ _ h2,
      Map.layerAt_setLayerVisible_self _ _ _ h1,
      Map.layerAt_setLayerVisible_self m _ _ h]

/-- Witness for C2 on the three-layer example map, toggling layer 1 to
hidden. -/
theorem setLayerVisible_swap_undo_redo_witness :
    SetLayerVisibleCmd.undo = SetLayerVisibleCmd.redo ∧
    (((SetLayerVisibleCmd.make 1 false).redo exMap3).1.layerAt 1).visible = false ∧
    ((SetLayerVisibleCmd.make 1 false).redo exMap3).2.mVisible
      = (exMap3.layerAt 1).visible ∧
    ((((SetLayerVisibleCmd.make 1 false).redo exMap3).2.undo
        ((SetLayerVisibleCmd.make 1 false).redo exMap3).1).1.layerAt 1).visible
      = (exMap3.layerAt 1).visible ∧
    (((((SetLayerVisibleCmd.make 1 false).redo exMap3).2.undo
          ((SetLayerVisibleCmd.make 1 false).redo exMap3).1).2.redo
        ((((SetLayerVisibleCmd.make 1 false).redo exMap3).2.undo
          ((SetLayerVisibleCmd.make 1 false).redo exMap3).1).1)).1.layerAt 1).visible
      = false :=
  setLayerVisible_swap_undo_redo exMap3 (SetLayerVisibleCmd.make 1 false) (by decide)

/-! ## C3: `SetLayerOpacity` merge -/

/-- C3. Merging a later `SetLayerOpacity` command `b` into an
earlier one `a`: when `b` targets the same document and layer index,
`mergeWith` succeeds, overwrites `a`'s new opacity with `b`'s and keeps
`a`'s old opacity, so undoing the merged command restores `a`'s old
opacity; when `b` targets a different document or layer index,
`mergeWith` reports non-mergeable and leaves `a` unchanged. -/
theorem setLayerOpacity_mergeWith_spec (a b : SetLayerOpacityCmd) (m : Map)
    (h : a.mLayerIndex < m.layerCount) :
    (a.mMapDocument = b.mMapDocument ∧ a.mLayerIndex = b.mLayerIndex →
      a.mergeWith b =
        (true, { mMapDocument := a.mMapDocument, mLayerIndex := a.mLayerIndex,
                 mOldOpacity := a.mOldOpacity, mNewOpacity := b.mNewOpacity }) ∧
      (((a.mergeWith b).2.undo m).layerAt a.mLayerIndex).opacity = a.mOldOpacity) ∧
    (¬(a.mMapDocument = b.mMapDocument ∧ a.mLayerIndex = b.mLayerIndex) →
      a.mergeWith b = (false, a)) := by
  constructor
  · intro hsame
    constructor
    · simp [SetLayerOpacityCmd.mergeWith, hsame]
    · obtain ⟨hd, hi⟩ := hsame
      simp [SetLayerOpacityCmd.mergeWith, hd, hi, SetLayerOpacityCmd.undo,
        Map.layerAt_setLayerOpacity_self _ _ _ (hi ▸ h)]
  · intro hdiff
    simp [SetLayerOpacityCmd.mergeWith, hdiff]

/-- Witness for C3: the spec's scenario `A(old = 0.2, new = 0.5)`,
`B(old = 0.5, new = 0.8)` on the same document and layer; the merged
command is `(old = 0.2, new = 0.8)` and undoing it restores `0.2`. -/
theorem setLayerOpacity_mergeWith_spec_witness :
    SetLayerOpacityCmd.mergeWith
        { mMapDocument := 0, mLayerIndex := 0, mOldOpacity := 1/5, mNewOpacity := 1/2 }
        { mMapDocument := 0, mLayerIndex := 0, mOldOpacity := 1/2, mNewOpacity := 4/5 } =
      (true, { mMapDocument := 0, mLayerIndex := 0, mOldOpacity := 1/5, mNewOpacity := 4/5 }) ∧
    (((SetLayerOpacityCmd.mergeWith
        { mMapDocument := 0, mLayerIndex := 0, mOldOpacity := 1/5, mNewOpacity := 1/2 }
        { mMapDocument := 0, mLayerIndex := 0, mOldOpacity := 1/2, mNewOpacity := 4/5 }).2.undo
          exMap1).layerAt 0).opacity = 1/5 :=
  (setLayerOpacity_mergeWith_spec
      { mMapDocument := 0, mLayerIndex := 0, mOldOpacity := 1/5, mNewOpacity := 1/2 }
      { mMapDocument := 0, mLayerIndex := 0, mOldOpacity := 1/2, mNewOpacity := 4/5 }
      exMap1 (by decide)).1 ⟨rfl, rfl⟩

/-! ## C4 and C5: `toggleOtherLayers` -/

/-- The first loop of `toggleOtherLayers`, characterised: from position
`i` it yields `true` exactly when every remaining layer other than
`layerIndex` is hidden. -/
theorem visibilityLoop_eq_true_iff (m : Map) (idx : Nat) :
    ∀ k i, m.layerCount - i = k →
      (visibilityLoop m idx i = true ↔
        ∀ j, i ≤ j → j < m.layerCount → j ≠ idx → (m.layerAt j).visible = false) := by
  intro k
  induction k with
  | zero =>
    intro i hk
    have hge : ¬ i < m.layerCount := by omega
    rw [visibilityLoop, dif_neg hge]
    constructor
    · intro _ j hij hj _
      omega
    · intro _
      rfl
  | succ k ih =>
    intro i hk
    have hlt : i < m.layerCount := by omega
    have ih' := ih (i + 1) (by omega)
    rw [visibilityLoop, dif_pos hlt]
    by_cases hidx : i = idx
    · rw [if_pos hidx, ih']
      constructor
      · intro hall j hij hj hjidx
        have hij1 : i + 1 ≤ j := by
          rcases Nat.eq_or_lt_of_le hij with heq | hlt'
          · exact absurd (heq ▸ hidx) hjidx
          · omega
        exact hall j hij1 hj hjidx
      · intro hall j hij hj hjidx
        exact hall j (by omega) hj hjidx
    · rw [if_neg hidx]
      by_cases hvis : (m.layerAt i).visible = true
      · rw [if_pos hvis]
        constructor
        · intro hfalse
          exact absurd hfalse (by simp)
        · intro hall
          exact absurd (hall i le_rfl hlt hidx) (by simp [hvis])
      · rw [if_neg hvis, ih']
        constructor
        · intro hall j hij hj hjidx
          rcases Nat.eq_or_lt_of_le hij with heq | hlt'
          · rw [← heq]
            exact Bool.eq_false_iff.mpr hvis
          · exact hall j hlt' hj hjidx
        · intro hall j hij hj hjidx
          exact hall j (by omega) hj hjidx

/-- The second loop of `toggleOtherLayers`, characterised: from position
`i` it pushes, in index order, one `SetLayerVisible` command for each
remaining layer other than `layerIndex` whose visibility differs from
the target. -/
theorem pushLoop_eq_filterMap (m : Map) (idx : Nat) (vis : Bool) :
    ∀ k i, m.layerCount - i = k →
      pushLoop m idx vis i =
        (List.range' i k).filterMap (fun j =>
          if j ≠ idx ∧ (m.layerAt j).visible ≠ vis then
            some (.setLayerVisible j vis)
          else none) := by
  intro k
  induction k with
  | zero =>
    intro i hk
    have hge : ¬ i < m.layerCount := by omega
    rw [pushLoop, dif_neg hge]
    rfl
  | succ k ih =>
    intro i hk
    have hlt : i < m.layerCount := by omega
    have ih' := ih (i + 1) (by omega)
    rw [pushLoop, dif_pos hlt, List.range'_succ, List.filterMap_cons]
    by_cases hidx : i = idx
    · have hfi : (if i ≠ idx ∧ (m.layerAt i).visible ≠ vis then
          some (UndoCmd.setLayerVisible i vis) else none) = none :=
        if_neg (fun hcon => hcon.1 hidx)
      rw [if_pos hidx]
      simp only [hfi]
      exact ih'
    · rw [if_neg hidx]
      by_cases hvis : (m.layerAt i).visible = vis
      · have hb : ¬ ((vis != (m.layerAt i).visible) = true) := by
          simp [hvis]
        have hfi : (if i ≠ idx ∧ (m.layerAt i).visible ≠ vis then
            some (UndoCmd.setLayerVisible i vis) else none) = none :=
          if_neg (fun hcon => hcon.2 hvis)
        rw [if_neg hb]
        simp only [hfi]
        exact ih'
      · have hb : (vis != (m.layerAt i).visible) = true := by
          rw [bne_iff_ne]
          exact fun hvv => hvis hvv.symm
        have hfi : (if i ≠ idx ∧ (m.layerAt i).visible ≠ vis then
            some (UndoCmd.setLayerVisible i vis) else none) =
            some (UndoCmd.setLayerVisible i vis) :=
          if_pos ⟨hidx, hvis⟩
        rw [if_pos hb]
        simp only [hfi]
        rw [ih']

/-- C4. With at least two layers, `toggleOtherLayers idx` opens one
undo group whose label is `"Show Other Layers"` when the computed
target is `true` and `"Hide Other Layers"` when it is `false`, pushing
inside it exactly one visibility command for each layer other than
`idx` whose current visibility differs from the target; the target is
`true` if and only if every layer other than `idx` is currently
hidden. -/
theorem toggleOtherLayers_spec (m : Map) (idx : Nat) (h : 2 ≤ m.layerCount) :
    toggleOtherLayers m idx =
      some ((if visibilityLoop m idx 0 then "Show Other Layers"
             else "Hide Other Layers"),
        (List.range m.layerCount).filterMap (fun j =>
          if j ≠ idx ∧ (m.layerAt j).visible ≠ visibilityLoop m idx 0 then
            some (.setLayerVisible j (visibilityLoop m idx 0))
          else none)) ∧
    (visibilityLoop m idx 0 = true ↔
      ∀ j, j < m.layerCount → j ≠ idx → (m.layerAt j).visible = false) := by
  constructor
  · have hn : ¬ m.layerCount ≤ 1 := by omega
    rw [toggleOtherLayers]
    simp only [hn, if_false]
    rw [pushLoop_eq_filterMap m idx _ m.layerCount 0 (by omega),
      List.range_eq_range']
  · have := visibilityLoop_eq_true_iff m idx m.layerCount 0 (by omega)
    rw [this]
    constructor
    · intro hall j hj hjidx
      exact hall j (Nat.zero_le j) hj hjidx
    · intro hall j _ hj hjidx
      exact hall j hj hjidx

/-- Witness for C4: the spec's scenario on the three-layer map (layer 0
hidden, layers 1 and 2 visible): `toggleOtherLayers 0` computes target
`false` and pushes hide commands for layers 1 and 2 under the label
`"Hide Other Layers"`. -/
theorem toggleOtherLayers_spec_witness :
    toggleOtherLayers exMap3 0 =
      some ((if visibilityLoop exMap3 0 0 then "Show Other Layers"
             else "Hide Other Layers"),
        (List.range exMap3.layerCount).filterMap (fun j =>
          if j ≠ 0 ∧ (exMap3.layerAt j).visible ≠ visibilityLoop exMap3 0 0 then
            some (.setLayerVisible j (visibilityLoop exMap3 0 0))
          else none)) ∧
    (visibilityLoop exMap3 0 0 = true ↔
      ∀ j, j < exMap3.layerCount → j ≠ 0 → (exMap3.layerAt j).visible = false) :=
  toggleOtherLayers_spec exMap3 0 (by decide)

/-- C5. With fewer than two layers, `toggleOtherLayers` returns
without opening an undo group or creating any command. -/
theorem toggleOtherLayers_single_layer (m : Map) (idx : Nat)
    (h : m.layerCount ≤ 1) :
    toggleOtherLayers m idx = none := by
  rw [toggleOtherLayers]
  simp [h]

/-- Witness for C5 on the one-layer example map. -/
theorem toggleOtherLayers_single_layer_witness :
    toggleOtherLayers exMap1 0 = none :=
  toggleOtherLayers_single_layer exMap1 0 (by decide)

/-! ## C6, C7 and C8: `setData` -/

/-- C6. For every valid row, `setData` under the check-state role
leaves the map untouched, reports the edit accepted, and pushes exactly
one `SetLayerVisible` command when the requested visibility differs
from the layer's current visibility — and no command when it does
not. -/
theorem setData_checkState_spec (m : Map) (r : Int) (v : Variant)
    (_h0 : 0 ≤ r) (h1 : r < (m.layerCount : Int)) :
    setData m (some r) v Role.checkStateRole =
      (m, true,
        if (v.toInt == qtChecked)
            != (m.layerAt ((m.layerCount : Int) - r - 1).toNat).visible then
          some (UndoCmd.setLayerVisible ((m.layerCount : Int) - r - 1).toNat
            (v.toInt == qtChecked))
        else none) ∧
    ((setData m (some r) v Role.checkStateRole).2.2 = none ↔
      (v.toInt == qtChecked)
        = (m.layerAt ((m.layerCount : Int) - r - 1).toNat).visible) := by
  have hneg : ¬ ((m.layerCount : Int) - r - 1 < 0) := by omega
  have hbody : setData m (some r) v Role.checkStateRole =
      (m, true,
        if (v.toInt == qtChecked)
            != (m.layerAt ((m.layerCount : Int) - r - 1).toNat).visible then
          some (UndoCmd.setLayerVisible ((m.layerCount : Int) - r - 1).toNat
            (v.toInt == qtChecked))
        else none) := by
    simp only [setData, toLayerIndex]
    rw [if_neg hneg]
    split <;> rfl
  refine ⟨hbody, ?_⟩
  rw [hbody]
  by_cases hc : (v.toInt == qtChecked)
      = (m.layerAt ((m.layerCount : Int) - r - 1).toNat).visible
  · simp [hc]
  · simp [hc]

/-- Witness for C6 on the three-layer map: checking row 0 (layer 2,
already visible) creates no command; checking row 2 (layer 0, hidden)
creates exactly one show command. -/
theorem setData_checkState_spec_witness :
    setData exMap3 (some 0) exVariantChecked Role.checkStateRole
      = (exMap3, true, none) ∧
    setData exMap3 (some 2) exVariantChecked Role.checkStateRole
      = (exMap3, true, some (UndoCmd.setLayerVisible 0 true)) :=
  ⟨((setData_checkState_spec exMap3 0 exVariantChecked (by decide)
      (by decide)).1).trans (by decide),
   ((setData_checkState_spec exMap3 2 exVariantChecked (by decide)
      (by decide)).1).trans (by decide)⟩

/-- C7. For every valid row, `setData` under the opacity role with
an unparseable value creates no command, leaves everything unchanged
and reports the edit rejected; with a parseable value it reports the
edit accepted and pushes a `SetLayerOpacity` command (capturing the
layer's current opacity as the old value) exactly when the parsed value
differs from the current opacity. -/
theorem setData_opacity_spec (m : Map) (r : Int) (v : Variant)
    (_h0 : 0 ≤ r) (h1 : r < (m.layerCount : Int)) :
    (v.toDouble = none →
      setData m (some r) v Role.opacityRole = (m, false, none)) ∧
    (∀ q : ℚ, v.toDouble = some q →
      setData m (some r) v Role.opacityRole =
        (m, true,
          if (m.layerAt ((m.layerCount : Int) - r - 1).toNat).opacity != q then
            some (UndoCmd.setLayerOpacity ((m.layerCount : Int) - r - 1).toNat
              (m.layerAt ((m.layerCount : Int) - r - 1).toNat).opacity q)
          else none)) := by
  have hneg : ¬ ((m.layerCount : Int) - r - 1 < 0) := by omega
  constructor
  · intro hv
    simp only [setData, toLayerIndex]
    rw [if_neg hneg, hv]
  · intro q hv
    simp only [setData, toLayerIndex]
    rw [if_neg hneg, hv]
    dsimp only
    split <;> rfl

/-- Witness for C7 on the three-layer map: an unparseable value is
rejected with no command; setting row 1 (layer 1, opacity `3`) to
`2` pushes one opacity command with old value `3`. -/
theorem setData_opacity_spec_witness :
    setData exMap3 (some 0) exVariantBad Role.opacityRole
      = (exMap3, false, none) ∧
    setData exMap3 (some 1) exVariantOpacity Role.opacityRole
      = (exMap3, true, some (UndoCmd.setLayerOpacity 1 3 2)) :=
  ⟨(setData_opacity_spec exMap3 0 exVariantBad (by decide) (by decide)).1 rfl,
   ((setData_opacity_spec exMap3 1 exVariantOpacity (by decide) (by decide)).2
      2 rfl).trans (by decide)⟩

/-- C8. For every valid row, `setData` under the edit role reports
the edit accepted, and pushes exactly one rename command when the new
name differs from the layer's current name; renaming a layer to its
current name pushes nothing (so the undo stack is unchanged and no
rename notification can be emitted). -/
theorem setData_rename_spec (m : Map) (r : Int) (v : Variant)
    (_h0 : 0 ≤ r) (h1 : r < (m.layerCount : Int)) :
    setData m (some r) v Role.editRole =
      (m, true,
        if (m.layerAt ((m.layerCount : Int) - r - 1).toNat).name != v.toString then
          some (UndoCmd.renameLayer ((m.layerCount : Int) - r - 1).toNat v.toString)
        else none) ∧
    ((m.layerAt ((m.layerCount : Int) - r - 1).toNat).name = v.toString →
      setData m (some r) v Role.editRole = (m, true, none)) := by
  have hneg : ¬ ((m.layerCount : Int) - r - 1 < 0) := by omega
  have hbody : setData m (some r) v Role.editRole =
      (m, true,
        if (m.layerAt ((m.layerCount : Int) - r - 1).toNat).name != v.toString then
          some (UndoCmd.renameLayer ((m.layerCount : Int) - r - 1).toNat v.toString)
        else none) := by
    simp only [setData, toLayerIndex]
    rw [if_neg hneg]
    split <;> rfl
  refine ⟨hbody, ?_⟩
  intro hname
  rw [hbody, hname]
  simp

/-- Witness for C8 on the three-layer map: renaming row 0 (layer 2,
named `"top"`) to `"top"` creates no command; renaming row 1 (layer 1,
named `"middle"`) to `"top"` creates exactly one rename command. -/
theorem setData_rename_spec_witness :
    setData exMap3 (some 0) exVariantName Role.editRole
      = (exMap3, true, none) ∧
    setData exMap3 (some 1) exVariantName Role.editRole
      = (exMap3, true, some (UndoCmd.renameLayer 1 "top")) :=
  ⟨((setData_rename_spec exMap3 0 exVariantName (by decide)
      (by decide)).1).trans (by decide),
   ((setData_rename_spec exMap3 1 exVariantName (by decide)
      (by decide)).1).trans (by decide)⟩

/-! ## C9: `takeLayerAt` -/

/-- Reading `m.layers.get?` at an in-range index yields the layer `layerAt`
reads there. -/
theorem Map.get?_eq_layerAt (m : Map) (i : Nat) (h : i < m.layerCount) :
    m.layers.get? i = some (m.layerAt i) := by
  rw [Map.layerAt, List.getD, List.get?_eq_get h]
  rfl

/-- C9. For every valid layer index, `takeLayerAt` emits the
about-to-be-removed signal first, removes the layer at that storage
index from the map inside a single-row removal notification at the
corresponding reversed row, emits the removed signal last, and returns
exactly the layer that was removed; the reversed row is
`layerCount - index - 1` and the map shrinks by one layer. -/
theorem takeLayerAt_spec (m : Map) (index : Nat) (h : index < m.layerCount) :
    takeLayerAt m index =
      (some (m.layerAt index), ⟨m.layers.eraseIdx index⟩,
       [Event.layerAboutToBeRemoved index,
        Event.beginRemoveRows (layerIndexToRow (m.layerCount : Int) index)
          (layerIndexToRow (m.layerCount : Int) index),
        Event.endRemoveRows,
        Event.layerRemoved index]) ∧
    layerIndexToRow (m.layerCount : Int) index = (m.layerCount : Int) - index - 1 ∧
    (Map.mk (m.layers.eraseIdx index)).layerCount = m.layerCount - 1 := by
  refine ⟨?_, rfl, ?_⟩
  · rw [takeLayerAt, Map.takeLayerAt, Map.get?_eq_layerAt m index h]
  · simp only [Map.layerCount, List.length_eraseIdx]
    have h' : index < m.layers.length := h
    simp [h']

/-- Witness for C9: removing layer 1 from the three-layer map. -/
theorem takeLayerAt_spec_witness :
    takeLayerAt exMap3 1 =
      (some (exLayer "middle" true 3),
       Map.mk [exLayer "bottom" false 1, exLayer "top" true 1],
       [Event.layerAboutToBeRemoved 1, Event.beginRemoveRows 1 1,
        Event.endRemoveRows, Event.layerRemoved 1]) ∧
    layerIndexToRow (exMap3.layerCount : Int) 1 = 1 ∧
    (Map.mk (exMap3.layers.eraseIdx 1)).layerCount = 2 :=
  have hspec := takeLayerAt_spec exMap3 1 (by decide)
  ⟨hspec.1.trans (by decide), hspec.2.1.trans (by decide), hspec.2.2.trans (by decide)⟩

/-! ## C10: `setMapDocument` and the null-document guarantee -/

/-- C10. `setMapDocument` has no null check after its identity
guard: re-binding null over a previously bound document dereferences
the null pointer (undefined behaviour, `none` in the model).  The
0-rows-with-no-document guarantee comes only from `rowCount`'s
null-map guard, which covers the initial never-bound state — on that
state binding null is caught by the identity guard and is a no-op. -/
theorem setMapDocument_no_null_guard :
    (∀ s : LayerModel, s.mMapDocument ≠ none → s.setMapDocument none = none) ∧
    LayerModel.initial.rowCount false = 0 ∧
    LayerModel.initial.setMapDocument none = some LayerModel.initial := by
  refine ⟨?_, rfl, rfl⟩
  intro s hs
  rw [LayerModel.setMapDocument, if_neg hs]

/-- Witness for C10: a model bound to a one-layer document, re-bound to
null, hits the unguarded dereference. -/
theorem setMapDocument_no_null_guard_witness :
    LayerModel.setMapDocument
      { mMapDocument := some { map := exMap1 }, mMap := some exMap1 } none = none :=
  setMapDocument_no_null_guard.1
    { mMapDocument := some { map := exMap1 }, mMap := some exMap1 } (by decide)

end LayerModelSpec
